import Mathlib

/-
Verification development for the location-board repository.

Part 1 models the geocoding gateway endpoint, the handler GET in
src/app/api/geocode/route.ts: a fallback chain across a primary provider
(Nominatim) and a secondary provider (Photon), with the secondary payload
normalized to the primary shape.

Part 2 models the data-access layer in the supabase module (profiles and
messages collections) and the relevant handlers of ConnectionMap.tsx.

Numeric JSON values (coordinates) are modelled as rationals; the gateway
performs no arithmetic on them, it only passes them through or reorders
them. The backend row store is modelled as an in-memory list to which the
issued statement (update / delete / insert with its filters) is applied.
-/

/-- Shape of one candidate in the primary (Nominatim) response, and also the
normalized output shape of the gateway: display_name, lat, lon. -/
structure NominatimCandidate where
  display_name : String
  lat : Rat
  lon : Rat
deriving DecidableEq, Repr

/-- The properties object of one Photon feature: properties.name,
properties.city, properties.country. Absent JSON fields are none. -/
structure PhotonProperties where
  name : String
  city : Option String
  country : Option String
deriving DecidableEq, Repr

/-- One Photon feature: its properties and geometry.coordinates, a
two-element array whose index 0 is longitude and index 1 is latitude.
The pair holds (index 0, index 1). -/
structure PhotonFeature where
  properties : PhotonProperties
  coordinates : Rat × Rat
deriving DecidableEq, Repr

/-- Outcome of one fetch call as seen by the route handler: exn when the
fetch itself (or reading the body after an ok response) throws, httpError
when a response arrives with ok = false, success with the parsed body
when ok = true and the body parses. -/
inductive FetchResult (α : Type) where
  | exn : FetchResult α
  | httpError : FetchResult α
  | success : α → FetchResult α
deriving DecidableEq, Repr

/-- The two upstream geocoding providers, in the order the handler may
contact them. -/
inductive Provider where
  | primary : Provider
  | secondary : Provider
deriving DecidableEq, Repr

/-- JavaScript truthiness of an optional string: absent and empty are falsy. -/
def jsTruthy : Option String → Bool
  | none => false
  | some s => !s.isEmpty

/-- The expression city OR country OR empty from route.ts line 38:
first truthy value among properties.city, properties.country, else the
empty string. -/
def cityOrCountry (p : PhotonProperties) : String :=
  if jsTruthy p.city then p.city.getD ""
  else if jsTruthy p.country then p.country.getD ""
  else ""

/-- The Photon-to-Nominatim conversion of route.ts lines 37-41: label is
name, comma, city-or-country; lat is coordinates index 1; lon is
coordinates index 0 (axis order swapped from lon-lat to lat-lon). -/
def formatPhotonFeature (f : PhotonFeature) : NominatimCandidate :=
  { display_name := f.properties.name ++ ", " ++ cityOrCountry f.properties,
    lat := f.coordinates.2,
    lon := f.coordinates.1 }

/-- Body of the primary response: the parsed JSON, either null (none) or an
array of candidates. The handler checks data and data.length before use. -/
abbrev PrimaryBody := Option (List NominatimCandidate)

/-- Result of the try block of the handler: either a candidate list to be
returned as JSON, or an exception escaping the block (error), together
with the list of providers contacted, in contact order. -/
structure TryResult where
  outcome : Except Unit (List NominatimCandidate)
  trace : List Provider
deriving Repr

/-- The try block of route.ts lines 11-46. The primary is fetched first.
A throwing primary fetch aborts the block at once (the exception
propagates), so the secondary is not contacted in that case. When the
primary is ok with a nonempty candidate array, that array is returned.
Otherwise the secondary is fetched: ok yields the formatted features, any
other outcome is an exception (the handler itself throws when the
secondary response is not ok). -/
def geocodeTry (prim : FetchResult PrimaryBody)
    (sec : FetchResult (List PhotonFeature)) : TryResult :=
  match prim with
  | .exn => { outcome := .error (), trace := [.primary] }
  | .success (some (c :: cs)) => { outcome := .ok (c :: cs), trace := [.primary] }
  | _ =>
    match sec with
    | .success feats =>
        { outcome := .ok (feats.map formatPhotonFeature), trace := [.primary, .secondary] }
    | _ => { outcome := .error (), trace := [.primary, .secondary] }

/-- HTTP response of the gateway: 200 with a candidate array, 400 for a
missing query, 500 when the try block failed. -/
inductive GeocodeResponse where
  | ok : List NominatimCandidate → GeocodeResponse
  | badRequest : GeocodeResponse
  | serverError : GeocodeResponse
deriving DecidableEq, Repr

/-- One run of the gateway: the response sent and the providers contacted. -/
structure GatewayRun where
  response : GeocodeResponse
  trace : List Provider
deriving DecidableEq, Repr

/-- The whole handler GET of route.ts: a missing or empty q parameter is
falsy and yields 400 before any fetch; otherwise the try block runs, its
exception outcome is caught and turned into 500, its ok outcome into 200. -/
def geocodeGET (query : Option String) (prim : FetchResult PrimaryBody)
    (sec : FetchResult (List PhotonFeature)) : GatewayRun :=
  match query with
  | none => { response := .badRequest, trace := [] }
  | some q =>
    if q = "" then { response := .badRequest, trace := [] }
    else
      let t := geocodeTry prim sec
      match t.outcome with
      | .ok cands => { response := .ok cands, trace := t.trace }
      | .error _ => { response := .serverError, trace := t.trace }

/-- A fetch outcome that is a provider-level failure: an exception or a
non-ok response. -/
def FetchResult.isFail : FetchResult α → Bool
  | .exn => true
  | .httpError => true
  | .success _ => false

/-- The Photon feature of the Chiangmai scenario: name Chiang Mai, country
Thailand, no city, coordinates [98.98, 18.79] in lon-lat order. -/
def chiangMaiFeature : PhotonFeature :=
  { properties := { name := "Chiang Mai", city := none, country := some "Thailand" },
    coordinates := (98.98, 18.79) }

/-
Part 2: data-access layer (supabase module) and ConnectionMap handlers.

Operations run under an ambient authentication session, modelled as an
Option String holding the current user id; an operation that calls
auth.getUser branches on it, an operation that never consults auth simply
ignores it. The row store is an in-memory list; the statement the client
issues (with its eq / in filters) is applied to every matching row.
-/

/-- Error outcome of a mutating data-access operation. The unauthenticated
case is the Error created when auth.getUser yields no user. -/
inductive OpError where
  | unauthenticated : OpError
deriving DecidableEq, Repr

/-- One row of the profiles collection, the Profile type of the supabase
module plus the created_at column the directory query orders by. -/
structure ProfileRow where
  id : String
  user_id : String
  username : String
  avatar_url : String
  current_city : String
  lat : Rat
  lng : Rat
  status_text : String
  return_date : String
  created_at : Nat
deriving DecidableEq, Repr

/-- The partial update object passed to updateProfile: any subset of the
Profile fields other than id and user_id. A none field is absent from the
update statement and leaves the column unchanged. -/
structure ProfileUpdates where
  username : Option String := none
  avatar_url : Option String := none
  current_city : Option String := none
  lat : Option Rat := none
  lng : Option Rat := none
  status_text : Option String := none
  return_date : Option String := none
deriving DecidableEq, Repr

/-- Effect of an update statement on one row: each present field overwrites
the column, absent fields keep it. -/
def applyUpdates (r : ProfileRow) (u : ProfileUpdates) : ProfileRow :=
  { r with
    username := u.username.getD r.username,
    avatar_url := u.avatar_url.getD r.avatar_url,
    current_city := u.current_city.getD r.current_city,
    lat := u.lat.getD r.lat,
    lng := u.lng.getD r.lng,
    status_text := u.status_text.getD r.status_text,
    return_date := u.return_date.getD r.return_date }

/-- getProfiles of the supabase module: select all profiles ordered by
created_at ascending; on a fetch error log and return the empty list. The
ordering the issued query requests from the store is modelled by a stable
sort on created_at. -/
def getProfiles (db : List ProfileRow) (fetchError : Bool) : List ProfileRow :=
  if fetchError then []
  else db.mergeSort (fun a b => decide (a.created_at ≤ b.created_at))

/-- updateProfile of the supabase module: requires a session, then issues an
update filtered by eq id AND eq user_id of the current user, so only a row
that has the given id and is owned by the session user is rewritten. -/
def updateProfile (session : Option String) (id : String) (u : ProfileUpdates)
    (db : List ProfileRow) : List ProfileRow × Option OpError :=
  match session with
  | none => (db, some .unauthenticated)
  | some uid =>
      (db.map (fun r => if r.id = id ∧ r.user_id = uid then applyUpdates r u else r), none)

/-- deleteProfile of the supabase module: requires a session, then issues a
delete filtered by eq id AND eq user_id of the current user. -/
def deleteProfile (session : Option String) (id : String)
    (db : List ProfileRow) : List ProfileRow × Option OpError :=
  match session with
  | none => (db, some .unauthenticated)
  | some uid =>
      (db.filter (fun r => !(decide (r.id = id ∧ r.user_id = uid))), none)

/-- One row of the messages collection. The id is assigned by the store at
insert time. -/
structure MessageRow where
  id : String
  sender_id : String
  receiver_id : String
  content : String
  is_read : Bool
deriving DecidableEq, Repr

/-- sendMessage of the supabase module: requires a session, then inserts one
row with sender_id the session user, receiver_id and content as given.
Modelled from the spec: the read flag of the new row defaults to false (the
column default lives in the backend schema, which is not part of the
sources; the spec states the flag is defaulted false). The newId parameter
stands for the row id the store assigns. -/
def sendMessage (session : Option String) (receiverId content newId : String)
    (msgs : List MessageRow) : List MessageRow × Option OpError :=
  match session with
  | none => (msgs, some .unauthenticated)
  | some uid =>
      (msgs ++ [{ id := newId, sender_id := uid, receiver_id := receiverId,
                  content := content, is_read := false }], none)

/-- Effect of the markMessagesAsRead update statement on one row: rows whose
id is among the given identifiers get is_read set true, others are kept. -/
def markReadRow (messageIds : List String) (m : MessageRow) : MessageRow :=
  if m.id ∈ messageIds then { m with is_read := true } else m

/-- markMessagesAsRead of the supabase module: issues an update setting
is_read true filtered by in id, with no call to auth.getUser anywhere in
its body — the ambient session is ignored. -/
def markMessagesAsRead (session : Option String) (messageIds : List String)
    (msgs : List MessageRow) : List MessageRow × Option OpError :=
  (msgs.map (markReadRow messageIds), none)

/-- The MapMember projection used by ConnectionMap. -/
structure MapMember where
  id : String
  userId : String
  name : String
  city : String
  latlng : Rat × Rat
  status : String
  countdown : String
  avatar : String
deriving DecidableEq, Repr

/-- profileToMember of ConnectionMap.tsx lines 42-51, with the JavaScript
falsy-or defaults written out for string columns (empty string is falsy). -/
def profileToMember (p : ProfileRow) : MapMember :=
  { id := p.id,
    userId := p.user_id,
    name := p.username,
    city := if p.current_city = "" then "未知" else p.current_city,
    latlng := (p.lat, p.lng),
    status := if p.status_text = "" then "" else p.status_text,
    countdown := if p.return_date = "" then "待定" else p.return_date,
    avatar := if p.avatar_url = "" then
        "https://api.dicebear.com/7.x/avataaars/svg?seed=default"
      else p.avatar_url }

/-- loadProfiles of ConnectionMap: fetch the directory through getProfiles
and project every row into a MapMember. -/
def loadDirectory (db : List ProfileRow) (fetchError : Bool) : List MapMember :=
  (getProfiles db fetchError).map profileToMember

/-- An event relevant to the unread counter: the user opening the inbox
(ConnectionMap lines 326-329) or a realtime INSERT on the messages table
carrying a receiver id and an otherwise arbitrary payload. -/
inductive MsgEvent where
  | openInbox : MsgEvent
  | insertMsg : String → String → MsgEvent
deriving DecidableEq, Repr

/-- Unread-counter transition of ConnectionMap. Opening the inbox sets the
counter to zero. The message channel is subscribed with the filter
receiver_id eq current user (line 129), so only inserts addressed to the
current user reach the callback, whose whole effect is prev plus one
(line 133); the payload is not consumed. Inserts addressed to any other
user never reach the callback and leave the counter unchanged. -/
def unreadStep (currentUser : String) (c : Nat) : MsgEvent → Nat
  | .openInbox => 0
  | .insertMsg receiver _ => if receiver = currentUser then c + 1 else c

/-- The component-local state touched by the pin-editing handlers of
ConnectionMap: the member list, the selected member, and the editing flag.
The transient saving flag and the alert are presentation only. -/
structure LocalState where
  members : List MapMember
  selectedMember : Option MapMember
  isEditing : Bool
deriving DecidableEq, Repr

/-- Observable steps a handler performs, in order: a mutation of the local
component state, or the awaited server call. -/
inductive UiAction where
  | mutateLocal : UiAction
  | callServer : UiAction
deriving DecidableEq, Repr

/-- handleAvatarUpdate of ConnectionMap lines 149-161: with a selected
member, the member list and the selection are rewritten with the new
avatar first, then the server update is awaited; its result is never
inspected, so a failing call (serverFails true) changes nothing — the
optimistic value stays. -/
def handleAvatarUpdate (st : LocalState) (newUrl : String) (serverFails : Bool) :
    LocalState × List UiAction :=
  match st.selectedMember with
  | none => (st, [])
  | some sel =>
      let members1 := st.members.map (fun m => if m.id = sel.id then { m with avatar := newUrl } else m)
      let st1 : LocalState :=
        { members := members1, selectedMember := some { sel with avatar := newUrl },
          isEditing := false }
      (st1, [.mutateLocal, .callServer])

/-- handleSaveProfile of ConnectionMap lines 163-183: with a selected
member, updateProfile is awaited first; on an error the handler only
alerts and the local state is untouched; only after a successful call are
the member list and the selection rewritten with the edited status and
countdown and the editing flag cleared. -/
def handleSaveProfile (st : LocalState) (editStatus editCountdown : String)
    (serverFails : Bool) : LocalState × List UiAction :=
  match st.selectedMember with
  | none => (st, [])
  | some sel =>
      if serverFails then (st, [.callServer])
      else
        let updated : MapMember := { sel with status := editStatus, countdown := editCountdown }
        ({ members := st.members.map (fun m => if m.id = sel.id then updated else m),
           selectedMember := some updated, isEditing := false },
         [.callServer, .mutateLocal])

/-- A sample normalized candidate, used to instantiate scenario inputs. -/
def testCand : NominatimCandidate :=
  { display_name := "Paris, France", lat := 48.85, lon := 2.35 }

/-- A sample member pin owned by user alice. -/
def memberAlice : MapMember :=
  { id := "p1", userId := "alice", name := "Alice", city := "Paris",
    latlng := (48, 2), status := "old status", countdown := "soon",
    avatar := "old.png" }

/-- A sample component state in which alice has selected her own pin for
editing. -/
def stSample : LocalState :=
  { members := [memberAlice], selectedMember := some memberAlice, isEditing := true }

/-- A sample profile row owned by user bob. -/
def rowBob : ProfileRow :=
  { id := "p2", user_id := "bob", username := "Bob", avatar_url := "",
    current_city := "Berlin", lat := 52, lng := 13, status_text := "",
    return_date := "", created_at := 2 }

/-- A sample partial update touching only the status text. -/
def updSample : ProfileUpdates := { status_text := some "hacked" }

/-- A sample unread message addressed to alice. -/
def msgSample : MessageRow :=
  { id := "m1", sender_id := "bob", receiver_id := "alice",
    content := "hi", is_read := false }

/-- Folding insert events into the unread counter adds exactly the number of
events addressed to the current user. -/
theorem unread_foldl_count (u : String) (n : Nat) (msgs : List (String × String)) :
    msgs.foldl (fun acc rp => unreadStep u acc (.insertMsg rp.1 rp.2)) n
      = n + (msgs.filter (fun rp => decide (rp.1 = u))).length := by
  induction msgs generalizing n with
  | nil => simp
  | cons hd tl ih =>
      rw [List.foldl_cons, ih]
      by_cases h : hd.1 = u <;> simp [unreadStep, h, List.filter_cons] <;> omega

/-- Marking one row read twice equals marking it once. -/
theorem markReadRow_idem (ids : List String) (m : MessageRow) :
    markReadRow ids (markReadRow ids m) = markReadRow ids m := by
  unfold markReadRow
  by_cases h : m.id ∈ ids <;> simp [h]

/-- C1: when the primary provider returns zero candidates (an empty or null
body) or a non-ok status and the secondary succeeds, the gateway returns
the secondary features normalized to the primary shape; the label of each
candidate is the feature name concatenated with its city or country if
present and the coordinate axis order is swapped from lon-lat to lat-lon;
in particular the Chiangmai scenario yields exactly one candidate labeled
Chiang Mai, Thailand at latitude 18.79 and longitude 98.98. -/
theorem geocode_fallback_normalization (q : String) (hq : q ≠ "")
    (prim : FetchResult PrimaryBody)
    (hp : prim = .httpError ∨ prim = .success none ∨ prim = .success (some []))
    (feats : List PhotonFeature) :
    (geocodeGET (some q) prim (.success feats)).response
        = .ok (feats.map formatPhotonFeature)
  ∧ (∀ f : PhotonFeature,
      formatPhotonFeature f =
        { display_name := f.properties.name ++ ", " ++ cityOrCountry f.properties,
          lat := f.coordinates.2, lon := f.coordinates.1 })
  ∧ geocodeGET (some "Chiangmai") (.success (some [])) (.success [chiangMaiFeature])
      = { response := .ok [{ display_name := "Chiang Mai, Thailand",
                             lat := 18.79, lon := 98.98 }],
          trace := [.primary, .secondary] } := by
  refine ⟨?_, fun f => rfl, ?_⟩
  · rcases hp with h | h | h <;> subst h <;> simp [geocodeGET, geocodeTry, hq]
  · rfl

/-- C1 witness: the general fallback equation instantiated at the Chiangmai
query with a non-ok primary and the sample feature. -/
theorem geocode_fallback_normalization_witness :
    (geocodeGET (some "Chiangmai") .httpError (.success [chiangMaiFeature])).response
      = .ok ([chiangMaiFeature].map formatPhotonFeature) :=
  (geocode_fallback_normalization "Chiangmai" (by decide) .httpError (Or.inl rfl)
    [chiangMaiFeature]).1

/-- C2 counterexample: when the primary fetch fails at the transport level
(the fetch call throws), the gateway answers 500 having contacted only the
primary; the secondary is not queried even though it would have succeeded,
contrary to the claim that a transport failure triggers the fallback. -/
theorem geocode_transport_failure_no_fallback_cex :
    (geocodeGET (some "Paris") .exn (.success [chiangMaiFeature])).trace
        = [Provider.primary]
  ∧ (geocodeGET (some "Paris") .exn (.success [chiangMaiFeature])).response
        = .serverError := by
  decide

/-- C2 amended: the primary is always contacted first; a transport-level
success with at least one candidate is answered verbatim without
contacting the secondary; a non-ok primary status or an empty or null
primary result set triggers the secondary; a primary transport failure
(thrown fetch) yields 500 directly without contacting the secondary. -/
theorem geocode_primary_first_fallback (q : String) (hq : q ≠ "")
    (prim : FetchResult PrimaryBody) (sec : FetchResult (List PhotonFeature)) :
    (geocodeGET (some q) prim sec).trace.head? = some .primary
  ∧ (∀ c cs, prim = .success (some (c :: cs)) →
      geocodeGET (some q) prim sec
        = { response := .ok (c :: cs), trace := [.primary] })
  ∧ ((prim = .httpError ∨ prim = .success none ∨ prim = .success (some [])) →
      (geocodeGET (some q) prim sec).trace = [.primary, .secondary])
  ∧ (prim = .exn →
      geocodeGET (some q) prim sec = { response := .serverError, trace := [.primary] }) := by
  refine ⟨?_, ?_, ?_, ?_⟩
  · rcases prim with _ | _ | b
    · simp [geocodeGET, geocodeTry, hq]
    · rcases sec with _ | _ | fs <;> simp [geocodeGET, geocodeTry, hq]
    · rcases b with _ | l
      · rcases sec with _ | _ | fs <;> simp [geocodeGET, geocodeTry, hq]
      · rcases l with _ | ⟨c, cs⟩
        · rcases sec with _ | _ | fs <;> simp [geocodeGET, geocodeTry, hq]
        · simp [geocodeGET, geocodeTry, hq]
  · rintro c cs rfl
    simp [geocodeGET, geocodeTry, hq]
  · rintro (rfl | rfl | rfl) <;>
      rcases sec with _ | _ | fs <;> simp [geocodeGET, geocodeTry, hq]
  · rintro rfl
    simp [geocodeGET, geocodeTry, hq]

/-- C2 witness: a primary success with one candidate is answered verbatim
with only the primary contacted; a non-ok primary status triggers the
secondary; a throwing primary fetch yields 500 with only the primary
contacted. -/
theorem geocode_primary_first_fallback_witness :
    geocodeGET (some "Paris") (.success (some [testCand])) (.success [])
      = { response := .ok [testCand], trace := [.primary] }
  ∧ (geocodeGET (some "Rome") .httpError (.success [])).trace
      = [Provider.primary, Provider.secondary]
  ∧ geocodeGET (some "Berlin") .exn (.success [])
      = { response := .serverError, trace := [.primary] } :=
  ⟨(geocode_primary_first_fallback "Paris" (by decide) (.success (some [testCand]))
      (.success [])).2.1 testCand [] rfl,
   (geocode_primary_first_fallback "Rome" (by decide) .httpError
      (.success [])).2.2.1 (Or.inl rfl),
   (geocode_primary_first_fallback "Berlin" (by decide) .exn
      (.success [])).2.2.2 rfl⟩

/-- C3: whenever both providers fail (exception or non-ok status), the
gateway answers 500, and any exception escaping the try block — in
particular a network-level exception of either fetch — is caught and
mapped to the same 500, never propagated to the caller (the handler is a
total function into the response type). -/
theorem geocode_both_fail_service_unavailable (q : String) (hq : q ≠ "")
    (prim : FetchResult PrimaryBody) (sec : FetchResult (List PhotonFeature))
    (hp : prim.isFail = true) (hs : sec.isFail = true) :
    (geocodeGET (some q) prim sec).response = .serverError
  ∧ ∀ (p : FetchResult PrimaryBody) (s : FetchResult (List PhotonFeature)),
      (geocodeTry p s).outcome = .error () →
      (geocodeGET (some q) p s).response = .serverError := by
  constructor
  · rcases prim with _ | _ | b
    · simp [geocodeGET, geocodeTry, hq]
    · rcases sec with _ | _ | fs <;> simp_all [geocodeGET, geocodeTry, hq, FetchResult.isFail]
    · simp [FetchResult.isFail] at hp
  · intro p s h
    simp [geocodeGET, hq, h]

/-- C3 witness: both providers answering with a non-ok status yields 500,
and a thrown primary fetch is folded into the same 500. -/
theorem geocode_both_fail_service_unavailable_witness :
    (geocodeGET (some "Paris") .httpError .httpError).response = .serverError
  ∧ (geocodeGET (some "Paris") .exn (.success [])).response = .serverError :=
  ⟨(geocode_both_fail_service_unavailable "Paris" (by decide) .httpError .httpError
      rfl rfl).1,
   (geocode_both_fail_service_unavailable "Paris" (by decide) .httpError .httpError
      rfl rfl).2 .exn (.success []) rfl⟩

/-- C4: opening the inbox resets the unread counter to zero; from then on
each realtime insert event addressed to the current user increments it by
exactly one, whatever the payload, and insert events addressed to another
user leave it unchanged; folding any run of insert events after the reset
leaves the counter equal to the number of events addressed to the user. -/
theorem unread_counter_reset_and_increment (u : String) (c : Nat)
    (msgs : List (String × String)) :
    unreadStep u c .openInbox = 0
  ∧ (∀ p, unreadStep u c (.insertMsg u p) = c + 1)
  ∧ (∀ v p, v ≠ u → unreadStep u c (.insertMsg v p) = c)
  ∧ msgs.foldl (fun acc rp => unreadStep u acc (.insertMsg rp.1 rp.2))
        (unreadStep u c .openInbox)
      = (msgs.filter (fun rp => decide (rp.1 = u))).length := by
  refine ⟨rfl, fun p => by simp [unreadStep], fun v p hv => by simp [unreadStep, hv], ?_⟩
  rw [show unreadStep u c .openInbox = 0 from rfl, unread_foldl_count]
  simp

/-- C4 witness: an insert addressed to bob leaves the counter of alice
unchanged. -/
theorem unread_counter_reset_and_increment_witness :
    unreadStep "alice" 5 (.insertMsg "bob" "hello") = 5 :=
  (unread_counter_reset_and_increment "alice" 5 []).2.2.1 "bob" "hello" (by decide)

/-- C5 counterexample: a status and return-estimate edit through the save
handler does not mutate the member pin before server confirmation; on a
failing server call the local state is returned untouched and the only
action performed is the server call itself, with no local mutation at
all — so the claimed optimistic mutation does not exist for these edits. -/
theorem save_profile_not_optimistic_cex :
    (handleSaveProfile stSample "new status" "2026" true).1 = stSample
  ∧ (handleSaveProfile stSample "new status" "2026" true).2 = [.callServer] := by
  constructor <;> rfl

/-- C5 amended: only the avatar edit is optimistic. The avatar handler
mutates the member list first and only then awaits the server call, whose
outcome it never inspects, so the local mutation stays in place on server
failure. The status and return-estimate save handler awaits the server
call first; on failure the local state is unchanged and no local mutation
happens, and only on success is the pin rewritten. -/
theorem pin_edit_mutation_policy (st : LocalState) (sel : MapMember)
    (hsel : st.selectedMember = some sel) (newUrl s cd : String) (fail : Bool) :
    (handleAvatarUpdate st newUrl fail).2 = [.mutateLocal, .callServer]
  ∧ (handleAvatarUpdate st newUrl fail).1.members
      = st.members.map (fun m => if m.id = sel.id then { m with avatar := newUrl } else m)
  ∧ (handleAvatarUpdate st newUrl true).1 = (handleAvatarUpdate st newUrl false).1
  ∧ (handleSaveProfile st s cd true).1 = st
  ∧ (handleSaveProfile st s cd true).2 = [.callServer]
  ∧ (handleSaveProfile st s cd false).2 = [.callServer, .mutateLocal] := by
  simp [handleAvatarUpdate, handleSaveProfile, hsel]

/-- C5 witness: the amended policy instantiated at the sample state with a
failing server call. -/
theorem pin_edit_mutation_policy_witness :
    (handleAvatarUpdate stSample "new.png" true).2 = [.mutateLocal, .callServer] :=
  (pin_edit_mutation_policy stSample memberAlice rfl "new.png" "s" "c" true).1

/-- C6: under an authenticated session, updateProfile and deleteProfile can
only touch rows owned by the session user, whatever id is passed: every
row owned by another user is still present unchanged afterwards, every row
of the updated store is an original row or the updated image of an owned
row with the passed id, and the deleted store only loses rows. -/
theorem profile_mutation_ownership (uid pid : String) (u : ProfileUpdates)
    (db : List ProfileRow) :
    (∀ r ∈ db, r.user_id ≠ uid →
        r ∈ (updateProfile (some uid) pid u db).1
      ∧ r ∈ (deleteProfile (some uid) pid db).1)
  ∧ (∀ r ∈ (updateProfile (some uid) pid u db).1,
        r ∈ db ∨ ∃ s ∈ db, s.user_id = uid ∧ s.id = pid ∧ r = applyUpdates s u)
  ∧ (∀ r ∈ (deleteProfile (some uid) pid db).1, r ∈ db) := by
  refine ⟨?_, ?_, ?_⟩
  · intro r hr hne
    constructor
    · have hg : (if r.id = pid ∧ r.user_id = uid then applyUpdates r u else r) = r := by
        rw [if_neg]
        rintro ⟨-, h2⟩
        exact hne h2
      show r ∈ db.map (fun r => if r.id = pid ∧ r.user_id = uid then applyUpdates r u else r)
      exact List.mem_map.mpr ⟨r, hr, hg⟩
    · refine List.mem_filter.mpr ⟨hr, ?_⟩
      simp only [Bool.not_eq_true', decide_eq_false_iff_not]
      rintro ⟨-, h2⟩
      exact hne h2
  · intro r hr
    simp only [updateProfile] at hr
    rcases List.mem_map.mp hr with ⟨s, hs, hmap⟩
    by_cases hc : s.id = pid ∧ s.user_id = uid
    · right
      exact ⟨s, hs, hc.2, hc.1, by rw [← hmap, if_pos hc]⟩
    · left
      rwa [← hmap, if_neg hc]
  · intro r hr
    exact (List.mem_filter.mp hr).1

/-- C6 witness: an update or delete issued by alice against the id of the
row owned by bob leaves the row of bob in place unchanged. -/
theorem profile_mutation_ownership_witness :
    rowBob ∈ (updateProfile (some "alice") "p2" updSample [rowBob]).1
  ∧ (rowBob ∈ [rowBob] ∨
      ∃ s ∈ [rowBob], s.user_id = "alice" ∧ s.id = "p2" ∧ rowBob = applyUpdates s updSample)
  ∧ rowBob ∈ [rowBob] := by
  have h1 := ((profile_mutation_ownership "alice" "p2" updSample [rowBob]).1 rowBob
    (by simp) (by decide)).1
  have h2 := ((profile_mutation_ownership "alice" "p2" updSample [rowBob]).1 rowBob
    (by simp) (by decide)).2
  exact ⟨h1,
    (profile_mutation_ownership "alice" "p2" updSample [rowBob]).2.1 rowBob h1,
    (profile_mutation_ownership "alice" "p2" updSample [rowBob]).2.2 rowBob h2⟩

/-- C7: sendMessage with no session answers unauthenticated and leaves the
message collection unchanged; with a session it appends exactly one row
with the session user as sender, the given receiver and content, and the
read flag false. -/
theorem send_message_auth_and_insert (receiverId content newId uid : String)
    (msgs : List MessageRow) :
    sendMessage none receiverId content newId msgs = (msgs, some .unauthenticated)
  ∧ sendMessage (some uid) receiverId content newId msgs
      = (msgs ++ [{ id := newId, sender_id := uid, receiver_id := receiverId,
                    content := content, is_read := false }], none) :=
  ⟨rfl, rfl⟩

/-- C8: marking a message read is idempotent: a second markMessagesAsRead on
the same identifier leaves the store exactly as after the first and
reports no error, and after the first call every row with that identifier
has its read flag true, so the flag transitions false to true exactly
once. -/
theorem mark_read_idempotent (session1 session2 : Option String) (m1 : String)
    (msgs : List MessageRow) :
    (markMessagesAsRead session2 [m1] (markMessagesAsRead session1 [m1] msgs).1).1
      = (markMessagesAsRead session1 [m1] msgs).1
  ∧ (markMessagesAsRead session2 [m1] (markMessagesAsRead session1 [m1] msgs).1).2 = none
  ∧ ∀ m ∈ (markMessagesAsRead session1 [m1] msgs).1, m.id = m1 → m.is_read = true := by
  refine ⟨?_, rfl, ?_⟩
  · show (msgs.map (markReadRow [m1])).map (markReadRow [m1]) = msgs.map (markReadRow [m1])
    rw [List.map_map]
    exact List.map_congr_left (fun m _ => markReadRow_idem [m1] m)
  · intro m hm hid
    rcases List.mem_map.mp hm with ⟨s, hs, rfl⟩
    by_cases h : s.id ∈ [m1]
    · have h1 : s.id = m1 := by simpa using h
      simp [markReadRow, h1]
    · rw [markReadRow, if_neg h] at hid ⊢
      exact absurd (by simp [hid]) h

/-- C8 witness: the sample unread message is read after one call, and the
second call reproduces the same store. -/
theorem mark_read_idempotent_witness :
    (markMessagesAsRead none ["m1"] (markMessagesAsRead none ["m1"] [msgSample]).1).1
      = (markMessagesAsRead none ["m1"] [msgSample]).1
  ∧ (markReadRow ["m1"] msgSample).is_read = true :=
  ⟨(mark_read_idempotent none none "m1" [msgSample]).1,
   (mark_read_idempotent none none "m1" [msgSample]).2.2 (markReadRow ["m1"] msgSample)
     (by decide) (by decide)⟩

/-- C9: the directory load returns every stored profile exactly once,
ordered by creation time ascending whatever order the store holds them in,
each projected into a member pin, and a fetch error yields the empty
directory instead of an error. -/
theorem load_directory_sorted_projection (db : List ProfileRow) :
    (getProfiles db false).Perm db
  ∧ (getProfiles db false).Pairwise (fun a b => a.created_at ≤ b.created_at)
  ∧ loadDirectory db false = (getProfiles db false).map profileToMember
  ∧ getProfiles db true = []
  ∧ loadDirectory db true = [] := by
  refine ⟨?_, ?_, rfl, rfl, rfl⟩
  · simpa [getProfiles] using
      List.mergeSort_perm db (fun a b => decide (a.created_at ≤ b.created_at))
  · have h := @List.sorted_mergeSort ProfileRow
      (fun a b => decide (a.created_at ≤ b.created_at))
      (fun a b c hab hbc => by
        simp only [decide_eq_true_eq] at hab hbc ⊢
        omega)
      (fun a b => by
        simp only [Bool.or_eq_true, decide_eq_true_eq]
        omega)
      db
    refine List.Pairwise.imp ?_ (by simpa [getProfiles] using h)
    intro a b hab
    simpa using hab

/-- C10: markMessagesAsRead never consults the session: its result is the
same under any session and under none, it never reports any error (in
particular never unauthenticated), and it always issues the read-flag
update to the store; the other mutating operations instead check the
session first and answer unauthenticated without touching the store. -/
theorem mark_read_no_auth_check (session : Option String) (ids : List String)
    (msgs : List MessageRow) (receiverId content newId pid : String)
    (u : ProfileUpdates) (db : List ProfileRow) :
    markMessagesAsRead session ids msgs = markMessagesAsRead none ids msgs
  ∧ (markMessagesAsRead session ids msgs).2 = none
  ∧ (markMessagesAsRead session ids msgs).1 = msgs.map (markReadRow ids)
  ∧ sendMessage none receiverId content newId msgs = (msgs, some .unauthenticated)
  ∧ updateProfile none pid u db = (db, some .unauthenticated)
  ∧ deleteProfile none pid db = (db, some .unauthenticated) :=
  ⟨rfl, rfl, rfl, rfl, rfl, rfl⟩
